import Mathlib

/-!
Verification development for the PacifiqueTrade indicator's core pipeline.

This file shallowly embeds the analysis and risk modules of the repository
(`src/analysis/*.py`, `src/risk/*.py`, `src/core/enums.py`, `src/core/config.py`)
as executable Lean definitions over exact rational arithmetic, and proves
properties of the embedded code.  Python floats are modelled as `ℚ`;
Python `None` as `Option`; raised exceptions as `Except`.  Python truthiness
of floats (`if x:`) is modelled as `x ≠ 0`, of strings as `s ≠ ""`, and of
lists as `l ≠ []`, matching CPython semantics.  Pure I/O (candle fetching,
news scraping) is factored out: each embedded function takes the already
fetched data as an argument, exactly as the Python function receives it from
its collaborators.
-/

namespace PacifiqueTrade

/-! ## Enumerations (src/core/enums.py) -/

/-- `TrendDirection` from src/core/enums.py. -/
inductive TrendDirection
  | bullish
  | bearish
  | sideways
  | undefined
  deriving DecidableEq, Repr

/-- `SignalStrength` from src/core/enums.py; `value` carries the numeric payload. -/
inductive SignalStrength
  | veryStrong
  | strong
  | moderate
  | weak
  | veryWeak
  | noSignal
  deriving DecidableEq, Repr

/-- The `.value` payload of `SignalStrength` (5, 4, 3, 2, 1, 0). -/
def SignalStrength.value : SignalStrength → ℚ
  | .veryStrong => 5
  | .strong => 4
  | .moderate => 3
  | .weak => 2
  | .veryWeak => 1
  | .noSignal => 0

/-- `FundamentalDirection` from src/core/enums.py. -/
inductive FundamentalDirection
  | usdStronger
  | usdWeaker
  | usdNeutral
  | counterpartyStronger
  | counterpartyWeaker
  deriving DecidableEq, Repr

/-- `SignalStatus` from src/core/enums.py. -/
inductive SignalStatus
  | pending
  | confirmed
  | active
  | completed
  | cancelled
  | expired
  deriving DecidableEq, Repr

/-- `LiquidityZoneType` from src/core/enums.py. -/
inductive LiquidityZoneType
  | equalHighs
  | equalLows
  | stopHuntBuy
  | stopHuntSell
  | fairValueGapBullish
  | fairValueGapBearish
  | orderBlock
  deriving DecidableEq, Repr

/-- The `.value` string of each `LiquidityZoneType`, exactly as in
src/core/enums.py (note: the bullish FVG value is `"fvg_bullish"`). -/
def LiquidityZoneType.value : LiquidityZoneType → String
  | .equalHighs => "equal_highs"
  | .equalLows => "equal_lows"
  | .stopHuntBuy => "stop_hunt_buy"
  | .stopHuntSell => "stop_hunt_sell"
  | .fairValueGapBullish => "fvg_bullish"
  | .fairValueGapBearish => "fvg_bearish"
  | .orderBlock => "order_block"

/-- `CurrencyPair` from src/core/enums.py. -/
inductive CurrencyPair
  | gbpUsd
  | eurUsd
  | usdJpy
  deriving DecidableEq, Repr

/-- `CurrencyPair.quote_currency` property from src/core/enums.py. -/
def CurrencyPair.quote_currency : CurrencyPair → String
  | .gbpUsd => "USD"
  | .eurUsd => "USD"
  | .usdJpy => "JPY"

/-! ## Configuration defaults (src/core/config.py)

The config singleton reads environment variables with the defaults below;
the embedding fixes the defaults, which is what the tests and claims use. -/

/-- `config.EQUAL_LEVEL_TOLERANCE` default `0.0015`. -/
def EQUAL_LEVEL_TOLERANCE : ℚ := 15 / 10000

/-- `config.MIN_TOUCHES` default `2`. -/
def MIN_TOUCHES : ℕ := 2

/-- `config.FVG_MIN_SIZE` default `0.0005`. -/
def FVG_MIN_SIZE : ℚ := 5 / 10000

/-- `config.PAIR_CONFIG[pair]['pip_value']` (the pip size of the pair). -/
def pairPipSize : CurrencyPair → ℚ
  | .gbpUsd => 1 / 10000
  | .eurUsd => 1 / 10000
  | .usdJpy => 1 / 100

/-! ## Candles and liquidity zones (src/analysis/liquidity_zones.py) -/

/-- One OHLC bar of the fetched dataframe (`open/high/low/close` columns;
`open` is a Lean keyword, hence `open_`).  Timestamps are positional: a
candle is identified by its row index. -/
structure Candle where
  open_ : ℚ
  high : ℚ
  low : ℚ
  close : ℚ
  deriving DecidableEq, Repr, Inhabited

/-- `LiquidityZone` dataclass from src/analysis/liquidity_zones.py.
`time_detected` (a pandas row label in the source) is modelled as the row
index, which is also `candle_index`. -/
structure LiquidityZone where
  zone_type : LiquidityZoneType
  price_level : ℚ
  price_range : ℚ × ℚ
  strength : ℕ
  touches : ℕ
  time_detected : ℕ
  candle_index : ℕ
  deriving DecidableEq, Repr

/-- Python `min(list)` on a nonempty list (callers guard nonemptiness). -/
def listMin : List ℚ → ℚ
  | [] => 0
  | x :: xs => xs.foldl min x

/-- Python `max(list)` on a nonempty list (callers guard nonemptiness). -/
def listMax : List ℚ → ℚ
  | [] => 0
  | x :: xs => xs.foldl max x

/-- `np.mean` of a list of levels. -/
def listMean (l : List ℚ) : ℚ := l.sum / l.length

/-- The swing-high rows of the dataframe: `high > high.shift(1)` and
`high > high.shift(-1)`.  Comparisons against the NaN produced by `shift`
at the edges are false, so the first and last rows never qualify.
Returns (row index, high). -/
def swingHighs (df : List Candle) : List (ℕ × ℚ) :=
  (List.range df.length).filterMap fun i =>
    if 0 < i ∧ i + 1 < df.length then
      let hi := (df.getD i default).high
      if (df.getD (i - 1) default).high < hi ∧ (df.getD (i + 1) default).high < hi then
        some (i, hi)
      else none
    else none

/-- The swing-low rows: `low < low.shift(1)` and `low < low.shift(-1)`. -/
def swingLows (df : List Candle) : List (ℕ × ℚ) :=
  (List.range df.length).filterMap fun i =>
    if 0 < i ∧ i + 1 < df.length then
      let lo := (df.getD i default).low
      if lo < (df.getD (i - 1) default).low ∧ lo < (df.getD (i + 1) default).low then
        some (i, lo)
      else none
    else none

/-- The inner clustering loop of `_detect_equal_highs` / `_detect_equal_lows`:
all swing points whose level is within the relative tolerance of the anchor
(`abs(level - other_level) / level <= tolerance`). -/
def similarLevels (tolerance : ℚ) (levels : List (ℕ × ℚ)) (anchor : ℚ) : List (ℕ × ℚ) :=
  levels.filter fun p => decide (|anchor - p.2| / anchor ≤ tolerance)

/-- Zone construction shared by `_detect_equal_highs` / `_detect_equal_lows`:
level = mean of the cluster, range = (min, max), strength = min(5, touches),
detection time / candle index = last cluster member's row. -/
def mkEqualZone (zt : LiquidityZoneType) (similar : List (ℕ × ℚ)) : LiquidityZone :=
  let vals := similar.map Prod.snd
  let idxs := similar.map Prod.fst
  { zone_type := zt
    price_level := listMean vals
    price_range := (listMin vals, listMax vals)
    strength := min 5 similar.length
    touches := similar.length
    time_detected := idxs.getLast?.getD 0
    candle_index := idxs.getLast?.getD 0 }

/-- The duplicate-suppression check: an already collected zone of the same
type whose level is within the relative tolerance of the new zone's level. -/
def isDuplicateZone (tolerance : ℚ) (zt : LiquidityZoneType)
    (zones : List LiquidityZone) (z : LiquidityZone) : Bool :=
  zones.any fun w =>
    decide (w.zone_type = zt ∧ |w.price_level - z.price_level| / z.price_level < tolerance)

/-- `LiquidityZoneDetector._detect_equal_highs`. -/
def detectEqualHighs (df : List Candle) : List LiquidityZone :=
  let sh := swingHighs df
  if sh.length < MIN_TOUCHES then []
  else
    sh.foldl (fun zones p =>
      let similar := similarLevels EQUAL_LEVEL_TOLERANCE sh p.2
      if MIN_TOUCHES ≤ similar.length then
        let z := mkEqualZone .equalHighs similar
        if isDuplicateZone EQUAL_LEVEL_TOLERANCE .equalHighs zones z then zones
        else zones ++ [z]
      else zones) []

/-- `LiquidityZoneDetector._detect_equal_lows`. -/
def detectEqualLows (df : List Candle) : List LiquidityZone :=
  let sl := swingLows df
  if sl.length < MIN_TOUCHES then []
  else
    sl.foldl (fun zones p =>
      let similar := similarLevels EQUAL_LEVEL_TOLERANCE sl p.2
      if MIN_TOUCHES ≤ similar.length then
        let z := mkEqualZone .equalLows similar
        if isDuplicateZone EQUAL_LEVEL_TOLERANCE .equalLows zones z then zones
        else zones ++ [z]
      else zones) []

/-- `LiquidityZoneDetector._detect_stop_hunts` (lookback fixed at 20 in the
source).  A buy stop-hunt spikes below the prior 20-bar low but closes
bullish with bullish continuation; the sell case is mirrored (`elif`). -/
def detectStopHunts (df : List Candle) : List LiquidityZone :=
  let lookback := 20
  (List.range df.length).foldl (fun zones i =>
    if lookback ≤ i ∧ i + 1 < df.length then
      let candle := df.getD i default
      let next := df.getD (i + 1) default
      let window := (df.drop (i - lookback)).take lookback
      let recentHigh := listMax (window.map Candle.high)
      let recentLow := listMin (window.map Candle.low)
      if candle.low < recentLow ∧ candle.open_ < candle.close ∧ candle.close < next.close then
        zones ++ [{ zone_type := .stopHuntBuy
                    price_level := candle.low
                    price_range := (candle.low, candle.low * (1001 / 1000))
                    strength := 4
                    touches := 1
                    time_detected := i
                    candle_index := i }]
      else if recentHigh < candle.high ∧ candle.close < candle.open_ ∧ next.close < candle.close then
        zones ++ [{ zone_type := .stopHuntSell
                    price_level := candle.high
                    price_range := (candle.high * (999 / 1000), candle.high)
                    strength := 4
                    touches := 1
                    time_detected := i
                    candle_index := i }]
      else zones
    else zones) []

/-- `LiquidityZoneDetector._detect_fair_value_gaps`: three-candle imbalances
with relative gap size at least `FVG_MIN_SIZE`. -/
def detectFairValueGaps (df : List Candle) : List LiquidityZone :=
  (List.range df.length).foldl (fun zones i =>
    if 2 ≤ i then
      let c1 := df.getD (i - 2) default
      let c3 := df.getD i default
      if c1.high < c3.low then
        if FVG_MIN_SIZE ≤ (c3.low - c1.high) / c1.high then
          zones ++ [{ zone_type := .fairValueGapBullish
                      price_level := (c1.high + c3.low) / 2
                      price_range := (c1.high, c3.low)
                      strength := 3
                      touches := 0
                      time_detected := i
                      candle_index := i }]
        else zones
      else if c3.high < c1.low then
        if FVG_MIN_SIZE ≤ (c1.low - c3.high) / c3.high then
          zones ++ [{ zone_type := .fairValueGapBearish
                      price_level := (c1.low + c3.high) / 2
                      price_range := (c3.high, c1.low)
                      strength := 3
                      touches := 0
                      time_detected := i
                      candle_index := i }]
        else zones
      else zones
    else zones) []

/-- The pure part of `LiquidityZoneDetector.detect_all_zones` after the data
fetch: concatenate the four sub-scans and sort by strength descending
(Python's stable `list.sort(key=..., reverse=True)`). -/
def detectAllZonesFrom (df : List Candle) : List LiquidityZone :=
  let zones := detectEqualHighs df ++ detectEqualLows df
    ++ detectStopHunts df ++ detectFairValueGaps df
  zones.mergeSort fun a b => decide (b.strength ≤ a.strength)

/-- `LiquidityZoneDetector.get_zones_near_price`: keep zones within
`distance_pct` percent of the current price, sorted by distance (stable). -/
def getZonesNearPrice (zones : List LiquidityZone) (currentPrice : ℚ)
    (distancePct : ℚ) : List LiquidityZone :=
  let nearby := zones.filter fun z =>
    decide (|z.price_level - currentPrice| / currentPrice ≤ distancePct / 100)
  nearby.mergeSort fun a b =>
    decide (|a.price_level - currentPrice| ≤ |b.price_level - currentPrice|)

/-! ## Fundamental analyzer (src/analysis/fundamental.py) -/

/-- `EconomicEvent` from src/data/forex_factory_api.py restricted to the
fields `_calculate_currency_score` reads (`date`, `time`, `impact` and
`previous` are never consulted by the scoring code). -/
structure EconomicEvent where
  currency : String
  event_name : String
  actual : Option String
  forecast : Option String
  deriving DecidableEq, Repr

/-- Python truthiness of an optional string: `None` and `""` are falsy. -/
def optStrTruthy : Option String → Bool
  | none => false
  | some s => !(s == "")

/-- Digits of a numeral, most significant first, to a natural number. -/
def digitsVal (l : List Char) : ℕ :=
  l.foldl (fun n c => 10 * n + (c.toNat - 48)) 0

/-- Python `float(...)` restricted to plain decimal literals
(optional sign, digits, at most one decimal point) — the only shapes the
economic-calendar value strings take after suffix stripping.  Anything else
is a parse failure (`None`). -/
def parseDecimal (s : String) : Option ℚ :=
  let cs := s.toList
  let signed : ℚ × List Char :=
    match cs with
    | '-' :: t => (-1, t)
    | '+' :: t => (1, t)
    | t => (1, t)
  match signed.2.splitOn '.' with
  | [ip] =>
      if ip ≠ [] ∧ ip.all Char.isDigit then some (signed.1 * digitsVal ip) else none
  | [ip, fp] =>
      if (ip ≠ [] ∨ fp ≠ []) ∧ ip.all Char.isDigit ∧ fp.all Char.isDigit then
        some (signed.1 * ((digitsVal ip : ℚ) + (digitsVal fp : ℚ) / ((10 : ℚ) ^ fp.length)))
      else none
  | _ => none

/-- `FundamentalAnalyzer._parse_economic_value`: empty/whitespace strings are
`None`; `%`/`,` are dropped and `K`/`M`/`B` replaced by zero blocks before
the float parse. -/
def parseEconomicValue (s : String) : Option ℚ :=
  if s.trim = "" then none
  else
    let t := ((((s.replace "%" "").replace "K" "000").replace "M" "000000").replace
      "B" "000000000").replace "," ""
    parseDecimal t.trim

/-- Is the string `k` a substring of `s` (Python's `k in s`)? -/
def containsKeyword (s k : String) : Bool := decide (2 ≤ (s.splitOn k).length)

/-- `FundamentalAnalyzer._is_higher_better`. -/
def isHigherBetter (eventName : String) : Bool :=
  let up := eventName.toUpper
  if ["GDP", "EMPLOYMENT", "RETAIL", "PMI", "SALES", "CONSUMER", "CONFIDENCE"].any
      (containsKeyword up) then
    true
  else if ["UNEMPLOYMENT", "JOBLESS", "CLAIMS", "DEFICIT"].any (containsKeyword up) then
    false
  else if ["CPI", "PPI", "INFLATION"].any (containsKeyword up) then
    false
  else true

/-- One event's contribution to the running score in
`_calculate_currency_score`: events missing (or with empty) actual/forecast
are skipped, unparseable values are skipped, otherwise the (possibly
sign-flipped) surprise weighted by 3.0. -/
def eventContribution (e : EconomicEvent) : ℚ :=
  if optStrTruthy e.forecast = false ∨ optStrTruthy e.actual = false then 0
  else
    match parseEconomicValue (e.actual.getD ""), parseEconomicValue (e.forecast.getD "") with
    | some actual, some forecast =>
        let surprise := actual - forecast
        (if isHigherBetter e.event_name then surprise else -surprise) * 3
    | _, _ => 0

/-- `FundamentalAnalyzer._calculate_currency_score`: accumulate the
contributions of the given currency's events, then clamp to [-10, 10]. -/
def calculateCurrencyScore (currency : String) (events : List EconomicEvent) : ℚ :=
  let currencyEvents := events.filter fun e => e.currency == currency
  let score := currencyEvents.foldl (fun score e => score + eventContribution e) 0
  max (-10) (min 10 score)

/-! ## Signal generator (src/analysis/signal_generator.py) -/

/-- `FundamentalSignal` restricted to the fields `generate_signal` reads
(direction and strength; the event list, timestamps and description are
carried opaquely and never branched on). -/
structure FundamentalSignal where
  direction : FundamentalDirection
  strength : SignalStrength
  deriving DecidableEq, Repr

/-- `TrendAnalysis` restricted to the fields `generate_signal` reads
(direction and strength). -/
structure TrendAnalysis where
  direction : TrendDirection
  strength : SignalStrength
  deriving DecidableEq, Repr

/-- `TradingSignal` from src/analysis/signal_generator.py (risk-management
fields start as `None` and timestamps carry no logic, so they are omitted). -/
structure TradingSignal where
  direction : String
  status : SignalStatus
  strength : SignalStrength
  fundamental : FundamentalSignal
  trend_h4 : TrendAnalysis
  trend_h1 : TrendAnalysis
  liquidity_zones : List LiquidityZone
  entry_price : ℚ
  entry_zone : Option LiquidityZone
  deriving DecidableEq, Repr

/-- `SignalGenerator._check_alignment`. -/
def checkAlignment (fundDir : FundamentalDirection) (trendDir : TrendDirection) : Bool :=
  if trendDir = .bullish then
    decide (fundDir = .usdWeaker ∨ fundDir = .counterpartyStronger)
  else if trendDir = .bearish then
    decide (fundDir = .usdStronger ∨ fundDir = .counterpartyWeaker)
  else false

/-- `SignalGenerator._find_best_entry_zone`.  The type filters use the
string literals of the source verbatim — note they do not coincide with the
`LiquidityZoneType` values for fair value gaps. -/
def findBestEntryZone (zones : List LiquidityZone) (direction : String) :
    Option LiquidityZone :=
  if zones.isEmpty then none
  else if direction = "long" then
    match zones.filter (fun z =>
        ["equal_lows", "stop_hunt_buy", "bullish_fvg"].contains z.zone_type.value) with
    | [] => zones.head?
    | z :: _ => some z
  else
    match zones.filter (fun z =>
        ["equal_highs", "stop_hunt_sell", "bearish_fvg"].contains z.zone_type.value) with
    | [] => zones.head?
    | z :: _ => some z

/-- `SignalGenerator._calculate_signal_strength`. -/
def calcSignalStrength (fund h4 h1 : SignalStrength) (zoneCount : ℕ) : SignalStrength :=
  let score := fund.value + h4.value + h1.value * (1 / 2)
  let score := score + (if 3 ≤ zoneCount then 2 else if 2 ≤ zoneCount then 1 else 0)
  let score := score / 3
  if 9 / 2 ≤ score then .veryStrong
  else if 7 / 2 ≤ score then .strong
  else if 5 / 2 ≤ score then .moderate
  else if 3 / 2 ≤ score then .weak
  else .veryWeak

/-- `SignalGenerator.generate_signal`, parameterized by the collaborator
outputs it consumes: the pair's fundamental signal (if the analyzer produced
one), the H4 and H1 trend analyses, the detected M15 liquidity zones and the
current price.  The gate sequence and all thresholds follow the source. -/
def generateSignal (fundamental : Option FundamentalSignal)
    (trendH4 trendH1 : TrendAnalysis) (zones : List LiquidityZone)
    (currentPrice : ℚ) : Option TradingSignal :=
  match fundamental with
  | none => none
  | some fund =>
    if fund.strength.value < 2 then none
    else if trendH4.direction = .sideways then none
    else if trendH1.direction ≠ trendH4.direction then none
    else if checkAlignment fund.direction trendH4.direction = false then none
    else if zones.isEmpty then none
    else
      let nearbyZones := getZonesNearPrice zones currentPrice (1 / 2)
      if nearbyZones.isEmpty then none
      else
        let direction := if trendH4.direction = .bullish then "long" else "short"
        some { direction := direction
               status := .pending
               strength := calcSignalStrength fund.strength trendH4.strength
                 trendH1.strength nearbyZones.length
               fundamental := fund
               trend_h4 := trendH4
               trend_h1 := trendH1
               liquidity_zones := nearbyZones
               entry_price := currentPrice
               entry_zone := findBestEntryZone nearbyZones direction }

/-! ## Trailing stop manager (src/risk/trailing_stop.py) -/

/-- `TrailingStopUpdate` dataclass from src/risk/trailing_stop.py (the fields
populated by the update-construction helper; `pair` and `timestamp` carry no
information relevant to the update logic and are omitted). -/
structure TrailingStopUpdate where
  direction : String
  current_price : ℚ
  old_stop : ℚ
  new_stop : ℚ
  reason : String
  profit_locked : ℚ
  deriving DecidableEq, Repr

/-- Modelled from the spec: `TrailingStopManager._create_update` is called by
`should_update_stop` but is missing from src/risk/trailing_stop.py.  The spec
says the manager "emits an update record {old stop, new stop, reason, profit
locked}"; we record the passed arguments verbatim, with the locked profit as
the distance the new stop sits on the winning side of entry. -/
def createUpdate (direction : String) (currentPrice oldStop newStop : ℚ)
    (reason : String) (entryPrice : ℚ) : TrailingStopUpdate :=
  { direction := direction
    current_price := currentPrice
    old_stop := oldStop
    new_stop := newStop
    reason := reason
    profit_locked := if direction = "long" then newStop - entryPrice else entryPrice - newStop }

/-- `TrailingStopManager._move_to_breakeven`. -/
def moveToBreakeven (direction : String) (entryPrice currentStop : ℚ) : Option ℚ :=
  if direction = "long" then
    if currentStop < entryPrice then some entryPrice else none
  else
    if currentStop > entryPrice then some entryPrice else none

/-- `TrailingStopManager._move_to_plus_1r`.  Note the stop distance is computed
from the *current* stop, not the trade's initial stop. -/
def moveToPlus1R (direction : String) (entryPrice currentStop : ℚ) : Option ℚ :=
  let stopDistance := |entryPrice - currentStop|
  if direction = "long" then
    let plus1r := entryPrice + stopDistance
    if currentStop < plus1r then some plus1r else none
  else
    let plus1r := entryPrice - stopDistance
    if currentStop > plus1r then some plus1r else none

/-- `TrailingStopManager._trail_by_ema_or_swing`.  Python's `if ema21:` is
truthiness, so `ema21 = 0.0` falls through to percentage trailing. -/
def trailByEmaOrSwing (direction : String) (currentPrice currentStop : ℚ)
    (ema21 : Option ℚ) : Option ℚ :=
  if ema21.getD 0 ≠ 0 then
    let e := ema21.getD 0
    if direction = "long" then
      let newStop := e * (998 / 1000)
      if newStop > currentStop ∧ newStop < currentPrice then some newStop else none
    else
      let newStop := e * (1002 / 1000)
      if newStop < currentStop ∧ newStop > currentPrice then some newStop else none
  else
    let trailPct : ℚ := 15 / 1000
    if direction = "long" then
      let newStop := currentPrice * (1 - trailPct)
      if newStop > currentStop then some newStop else none
    else
      let newStop := currentPrice * (1 + trailPct)
      if newStop < currentStop then some newStop else none

/-- `TrailingStopManager.should_update_stop`.  The guard
`if new_stop and new_stop != current_stop` uses float truthiness, hence
`ns ≠ 0`. -/
def shouldUpdateStop (direction : String) (entryPrice currentPrice currentStop rAchieved : ℚ)
    (ema21 : Option ℚ) : Option TrailingStopUpdate :=
  if 9 / 10 ≤ rAchieved ∧ rAchieved < 3 / 2 then
    match moveToBreakeven direction entryPrice currentStop with
    | some ns =>
        if ns ≠ 0 ∧ ns ≠ currentStop then
          some (createUpdate direction currentPrice currentStop ns
            "Moved to breakeven at +1R" entryPrice)
        else none
    | none => none
  else if 3 / 2 ≤ rAchieved ∧ rAchieved < 5 / 2 then
    match moveToPlus1R direction entryPrice currentStop with
    | some ns =>
        if ns ≠ 0 ∧ ns ≠ currentStop then
          some (createUpdate direction currentPrice currentStop ns
            "Moved to +1R at +2R achieved" entryPrice)
        else none
    | none => none
  else if 5 / 2 ≤ rAchieved then
    match trailByEmaOrSwing direction currentPrice currentStop ema21 with
    | some ns =>
        if ns ≠ 0 ∧ ns ≠ currentStop then
          some (createUpdate direction currentPrice currentStop ns
            "Trailing stop by EMA21/swing" entryPrice)
        else none
    | none => none
  else none

/-! ## Position sizer (src/risk/position_sizer.py) -/

/-- `PositionSize` dataclass from src/risk/position_sizer.py. -/
structure PositionSize where
  pair : CurrencyPair
  account_balance : ℚ
  risk_percentage : ℚ
  risk_amount : ℚ
  entry_price : ℚ
  stop_loss : ℚ
  stop_distance_pips : ℚ
  position_size_lots : ℚ
  position_size_units : ℚ
  pip_value : ℚ
  deriving DecidableEq, Repr

/-- The per-lot pip value chosen in `calculate_position_size`
($9.16 for JPY-quoted pairs, $10 otherwise). -/
def pairPipValuePerLot (pair : CurrencyPair) : ℚ :=
  if pair.quote_currency = "JPY" then 916 / 100 else 10

/-- `PositionSizer.calculate_position_size`, parameterized by the sizer's
constructor state (account balance, risk percentage, leverage). -/
def calculatePositionSize (accountBalance riskPercentage leverage : ℚ)
    (pair : CurrencyPair) (entryPrice stopLoss : ℚ) : Except String PositionSize :=
  if entryPrice ≤ 0 ∨ stopLoss ≤ 0 then
    .error "Entry price and stop loss must be positive"
  else if entryPrice = stopLoss then
    .error "Entry price cannot equal stop loss"
  else
    let riskAmount := accountBalance * (riskPercentage / 100)
    let pipSize := pairPipSize pair
    let stopDistance := |entryPrice - stopLoss|
    let stopDistancePips := stopDistance / pipSize
    let pipValuePerLot := pairPipValuePerLot pair
    let lots := riskAmount / (stopDistancePips * pipValuePerLot)
    let units := lots * 100000
    let maxPosition := accountBalance * leverage / entryPrice
    .ok
      { pair := pair
        account_balance := accountBalance
        risk_percentage := riskPercentage
        risk_amount := riskAmount
        entry_price := entryPrice
        stop_loss := stopLoss
        stop_distance_pips := stopDistancePips
        position_size_lots := if units > maxPosition then maxPosition / 100000 else lots
        position_size_units := if units > maxPosition then maxPosition else units
        pip_value := pipValuePerLot }

/-! ## Stop-loss / take-profit calculator (src/risk/sl_tp_calculator.py) -/

/-- `SLTPLevels` dataclass from src/risk/sl_tp_calculator.py. -/
structure SLTPLevels where
  pair : CurrencyPair
  direction : String
  entry_price : ℚ
  stop_loss : ℚ
  stop_loss_pips : ℚ
  take_profit_1 : ℚ
  take_profit_2 : ℚ
  take_profit_3 : ℚ
  r_multiple_1 : ℚ
  r_multiple_2 : ℚ
  r_multiple_3 : ℚ
  position_split : ℕ × ℕ × ℕ
  deriving DecidableEq, Repr

/-- Python `max(zones, key=price_level)` (first maximal element) as an
`Option` for the possibly empty filter result. -/
def maxByPriceLevel : List LiquidityZone → Option LiquidityZone
  | [] => none
  | z :: zs => some (zs.foldl (fun acc w => if acc.price_level < w.price_level then w else acc) z)

/-- Python `min(zones, key=price_level)` (first minimal element). -/
def minByPriceLevel : List LiquidityZone → Option LiquidityZone
  | [] => none
  | z :: zs => some (zs.foldl (fun acc w => if w.price_level < acc.price_level then w else acc) z)

/-- `SLTPCalculator._calculate_stop_loss`: 5 pips beyond the nearest opposing
zone, or the 1.5% percentage fallback. -/
def calculateStopLoss (pair : CurrencyPair) (direction : String) (entryPrice : ℚ)
    (liquidityZones : List LiquidityZone) : ℚ :=
  let pipSize := pairPipSize pair
  let defaultSlPct : ℚ := 15 / 1000
  let fallback :=
    if direction = "long" then entryPrice * (1 - defaultSlPct)
    else entryPrice * (1 + defaultSlPct)
  if liquidityZones.isEmpty then fallback
  else if direction = "long" then
    match maxByPriceLevel (liquidityZones.filter fun z => decide (z.price_level < entryPrice)) with
    | some nearestSupport => nearestSupport.price_range.1 - 5 * pipSize
    | none => fallback
  else
    match minByPriceLevel (liquidityZones.filter fun z => decide (entryPrice < z.price_level)) with
    | some nearestResistance => nearestResistance.price_range.2 + 5 * pipSize
    | none => fallback

/-- `SLTPCalculator._validate_stop_loss` (the raising part; the
tight/wide checks only log warnings). -/
def validStopLoss (direction : String) (entryPrice stopLoss : ℚ) : Bool :=
  decide (¬(direction = "long" ∧ entryPrice ≤ stopLoss)
    ∧ ¬(direction = "short" ∧ stopLoss ≤ entryPrice))

/-- `SLTPCalculator.calculate_sl_tp`, parameterized by the calculator's
`min_r_multiple` (from config).  A `None` zone list and an empty zone list
are both falsy in the source, so zones are a plain list here.  Python's
`if custom_sl:` is float truthiness, so a supplied `0.0` is ignored. -/
def calculateSlTp (minRMultiple : ℚ) (pair : CurrencyPair) (direction : String)
    (entryPrice : ℚ) (liquidityZones : List LiquidityZone) (customSl : Option ℚ) :
    Except String SLTPLevels :=
  let stopLoss :=
    match customSl with
    | some c => if c ≠ 0 then c else calculateStopLoss pair direction entryPrice liquidityZones
    | none => calculateStopLoss pair direction entryPrice liquidityZones
  if validStopLoss direction entryPrice stopLoss then
    let pipSize := pairPipSize pair
    let stopDistance := |entryPrice - stopLoss|
    let stopDistancePips := stopDistance / pipSize
    let r3Multiple := max 3 minRMultiple
    let tp1 :=
      if direction = "long" then entryPrice + stopDistance * 1
      else entryPrice - stopDistance * 1
    let tp2 :=
      if direction = "long" then entryPrice + stopDistance * 2
      else entryPrice - stopDistance * 2
    let tp3 :=
      if direction = "long" then entryPrice + stopDistance * r3Multiple
      else entryPrice - stopDistance * r3Multiple
    .ok { pair := pair
          direction := direction
          entry_price := entryPrice
          stop_loss := stopLoss
          stop_loss_pips := stopDistancePips
          take_profit_1 := tp1
          take_profit_2 := tp2
          take_profit_3 := tp3
          r_multiple_1 := |tp1 - entryPrice| / stopDistance
          r_multiple_2 := |tp2 - entryPrice| / stopDistance
          r_multiple_3 := |tp3 - entryPrice| / stopDistance
          position_split := (33, 33, 34) }
  else .error "Stop loss on wrong side of entry"

/-! ## Concrete data used by witnesses and evaluation theorems -/

/-- The concrete update produced in the witness scenario for the
monotonic-improvement theorem. -/
def trailingWitnessUpdate : TrailingStopUpdate :=
  createUpdate "long" (101 / 100) (99 / 100) 1 "Moved to breakeven at +1R" 1

/-- An equal-highs (resistance-type) zone used to exercise
`_find_best_entry_zone`. -/
def equalHighsZone : LiquidityZone :=
  { zone_type := .equalHighs
    price_level := 127 / 100
    price_range := (1269 / 1000, 1271 / 1000)
    strength := 4
    touches := 2
    time_detected := 0
    candle_index := 0 }

/-- A bullish fair-value-gap (support-type) zone used to exercise
`_find_best_entry_zone`. -/
def bullishFvgZone : LiquidityZone :=
  { zone_type := .fairValueGapBullish
    price_level := 1268 / 1000
    price_range := (1266 / 1000, 1270 / 1000)
    strength := 3
    touches := 0
    time_detected := 1
    candle_index := 1 }

/-- Candle series whose swing highs are exactly 1.2700, 1.2702, 1.2699
(at rows 1, 3, 5; the flat rows between are not swing highs and the edges
never qualify). -/
def equalHighsCandles : List Candle :=
  [⟨1269 / 1000, 1269 / 1000, 1269 / 1000, 1269 / 1000⟩,
   ⟨127 / 100, 127 / 100, 127 / 100, 127 / 100⟩,
   ⟨1269 / 1000, 1269 / 1000, 1269 / 1000, 1269 / 1000⟩,
   ⟨12702 / 10000, 12702 / 10000, 12702 / 10000, 12702 / 10000⟩,
   ⟨1269 / 1000, 1269 / 1000, 1269 / 1000, 1269 / 1000⟩,
   ⟨12699 / 10000, 12699 / 10000, 12699 / 10000, 12699 / 10000⟩,
   ⟨1269 / 1000, 1269 / 1000, 1269 / 1000, 1269 / 1000⟩]

/-- The uncapped position of the risk-identity witness
(entry 1.2700, stop 1.2650, 50 pips, $100 risk, leverage 100). -/
def positionWitness : PositionSize :=
  { pair := .gbpUsd
    account_balance := 10000
    risk_percentage := 1
    risk_amount := 100
    entry_price := 127 / 100
    stop_loss := 1265 / 1000
    stop_distance_pips := 50
    position_size_lots := 1 / 5
    position_size_units := 20000
    pip_value := 10 }

/-- The leverage-capped position at the default config
(balance 10000, risk 1%, leverage 1): 0.2 uncapped lots shrink to 10/127. -/
def positionCapped : PositionSize :=
  { pair := .gbpUsd
    account_balance := 10000
    risk_percentage := 1
    risk_amount := 100
    entry_price := 127 / 100
    stop_loss := 1265 / 1000
    stop_distance_pips := 50
    position_size_lots := 10 / 127
    position_size_units := 1000000 / 127
    pip_value := 10 }

/-- A sideways H4 trend analysis (witness data). -/
def sidewaysTrend : TrendAnalysis := ⟨.sideways, .strong⟩

/-- A bullish H1 trend analysis (witness data). -/
def bullishTrend : TrendAnalysis := ⟨.bullish, .strong⟩

/-- A strong USD-weaker fundamental signal (witness data). -/
def strongFundamental : FundamentalSignal := ⟨.usdWeaker, .strong⟩

/-- A USD event with a positive surprise (witness data). -/
def gdpBeatEvent : EconomicEvent := ⟨"USD", "GDP", some "3.0", some "2.5"⟩

/-- A USD event whose actual equals its forecast (witness data). -/
def cpiInlineEvent : EconomicEvent := ⟨"USD", "CPI", some "2.0", some "2.0"⟩

/-- The levels returned for a long at entry 1.2700 with no zones (1.5%
fallback stop 1.25095, distance 0.01905) and the default minimum R-multiple
of 3 (witness data). -/
def sltpWitnessLevels : SLTPLevels :=
  { pair := .gbpUsd
    direction := "long"
    entry_price := 127 / 100
    stop_loss := 25019 / 20000
    stop_loss_pips := 381 / 2
    take_profit_1 := 25781 / 20000
    take_profit_2 := 26162 / 20000
    take_profit_3 := 26543 / 20000
    r_multiple_1 := 1
    r_multiple_2 := 2
    r_multiple_3 := 3
    position_split := (33, 33, 34) }

/-! # Theorems -/

/-! ## Trailing stop (claims C4, C5) -/

lemma moveToBreakeven_improves {d : String} {e cs ns : ℚ}
    (h : moveToBreakeven d e cs = some ns) :
    (d = "long" → cs < ns) ∧ (d ≠ "long" → ns < cs) := by
  unfold moveToBreakeven at h
  split at h
  · constructor
    · intro _
      split at h
      · exact Option.some.inj h ▸ ‹cs < e›
      · exact absurd h (by simp)
    · intro hne; exact absurd ‹d = "long"› hne
  · constructor
    · intro hl; exact absurd hl ‹¬ d = "long"›
    · intro _
      split at h
      · exact Option.some.inj h ▸ ‹cs > e›
      · exact absurd h (by simp)

lemma moveToPlus1R_improves {d : String} {e cs ns : ℚ}
    (h : moveToPlus1R d e cs = some ns) :
    (d = "long" → cs < ns) ∧ (d ≠ "long" → ns < cs) := by
  unfold moveToPlus1R at h
  simp only at h
  split at h
  · constructor
    · intro _
      split at h
      · exact Option.some.inj h ▸ ‹cs < e + |e - cs|›
      · exact absurd h (by simp)
    · intro hne; exact absurd ‹d = "long"› hne
  · constructor
    · intro hl; exact absurd hl ‹¬ d = "long"›
    · intro _
      split at h
      · exact Option.some.inj h ▸ ‹cs > e - |e - cs|›
      · exact absurd h (by simp)

lemma trailByEmaOrSwing_improves {d : String} {cp cs ns : ℚ} {ema : Option ℚ}
    (h : trailByEmaOrSwing d cp cs ema = some ns) :
    (d = "long" → cs < ns) ∧ (d ≠ "long" → ns < cs) := by
  unfold trailByEmaOrSwing at h
  simp only at h
  split at h
  · split at h
    · constructor
      · intro _
        split at h
        · exact Option.some.inj h ▸ ‹_ ∧ _›.1
        · exact absurd h (by simp)
      · intro hne; exact absurd ‹d = "long"› hne
    · constructor
      · intro hl; exact absurd hl ‹¬ d = "long"›
      · intro _
        split at h
        · exact Option.some.inj h ▸ ‹_ ∧ _›.1
        · exact absurd h (by simp)
  · split at h
    · constructor
      · intro _
        split at h
        · exact Option.some.inj h ▸ ‹_ > cs›
        · exact absurd h (by simp)
      · intro hne; exact absurd ‹d = "long"› hne
    · constructor
      · intro hl; exact absurd hl ‹¬ d = "long"›
      · intro _
        split at h
        · exact Option.some.inj h ▸ ‹_ < cs›
        · exact absurd h (by simp)

lemma update_conclusions (d : String) (cp cs ns e : ℚ) (r : String)
    (himp : (d = "long" → cs < ns) ∧ (d ≠ "long" → ns < cs)) :
    (createUpdate d cp cs ns r e).old_stop = cs
    ∧ (d = "long" → cs < (createUpdate d cp cs ns r e).new_stop)
    ∧ (d = "short" → (createUpdate d cp cs ns r e).new_stop < cs)
    ∧ (d = "long" ∧ cs = e → e < (createUpdate d cp cs ns r e).new_stop)
    ∧ (d = "short" ∧ cs = e → (createUpdate d cp cs ns r e).new_stop < e) := by
  dsimp only [createUpdate]
  refine ⟨rfl, himp.1, ?_, ?_, ?_⟩
  · intro hd; exact himp.2 (by rw [hd]; decide)
  · rintro ⟨hd, rfl⟩; exact himp.1 hd
  · rintro ⟨hd, rfl⟩; exact himp.2 (by rw [hd]; decide)

/-- Claim C4: every update returned by `should_update_stop` strictly improves
protection — for a long the new stop is strictly above the old stop, for a
short strictly below — and in particular a call made when the stop already
sits at breakeven (`current_stop = entry_price`) can never move it to the
losing side of entry, whatever the achieved R-multiple. -/
theorem trailing_stop_strictly_improves
    (direction : String) (entryPrice currentPrice currentStop rAchieved : ℚ)
    (ema21 : Option ℚ) (u : TrailingStopUpdate)
    (h : shouldUpdateStop direction entryPrice currentPrice currentStop rAchieved ema21
      = some u) :
    u.old_stop = currentStop
    ∧ (direction = "long" → currentStop < u.new_stop)
    ∧ (direction = "short" → u.new_stop < currentStop)
    ∧ (direction = "long" ∧ currentStop = entryPrice → entryPrice < u.new_stop)
    ∧ (direction = "short" ∧ currentStop = entryPrice → u.new_stop < entryPrice) := by
  unfold shouldUpdateStop at h
  split at h
  · split at h
    next ns heq =>
      split at h
      · cases Option.some.inj h
        exact update_conclusions _ _ _ _ _ _ (moveToBreakeven_improves heq)
      · exact absurd h (by simp)
    next heq => exact absurd h (by simp)
  · split at h
    · split at h
      next ns heq =>
        split at h
        · cases Option.some.inj h
          exact update_conclusions _ _ _ _ _ _ (moveToPlus1R_improves heq)
        · exact absurd h (by simp)
      next heq => exact absurd h (by simp)
    · split at h
      · split at h
        next ns heq =>
          split at h
          · cases Option.some.inj h
            exact update_conclusions _ _ _ _ _ _ (trailByEmaOrSwing_improves heq)
          · exact absurd h (by simp)
        next heq => exact absurd h (by simp)
      · exact absurd h (by simp)

theorem trailing_stop_strictly_improves_witness :
    shouldUpdateStop "long" 1 (101 / 100) (99 / 100) 1 none = some trailingWitnessUpdate
    ∧ (trailingWitnessUpdate.old_stop = 99 / 100
       ∧ ("long" = "long" → (99 : ℚ) / 100 < trailingWitnessUpdate.new_stop)
       ∧ ("long" = "short" → trailingWitnessUpdate.new_stop < 99 / 100)
       ∧ ("long" = "long" ∧ (99 : ℚ) / 100 = 1 → 1 < trailingWitnessUpdate.new_stop)
       ∧ ("long" = "short" ∧ (99 : ℚ) / 100 = 1 → trailingWitnessUpdate.new_stop < 1)) := by
  have h0 : shouldUpdateStop "long" 1 (101 / 100) (99 / 100) 1 none
      = some trailingWitnessUpdate := by with_unfolding_all decide
  exact ⟨h0,
    trailing_stop_strictly_improves "long" 1 (101 / 100) (99 / 100) 1 none
      trailingWitnessUpdate h0⟩

/-- Claim C5: in the locked-1R band (`1.5 ≤ R < 2.5`), a call made after the
stop was already moved to breakeven (`current_stop = entry_price`) produces NO
update at all: `_move_to_plus_1r` computes the stop distance from the current
stop — which is zero at breakeven — instead of the trade's initial stop
distance, so the documented "lock +1R at +2R" move never happens in the
documented breakeven → locked-1R sequence. -/
theorem plus1r_after_breakeven_is_silent :
    shouldUpdateStop "long" 1 (102 / 100) 1 2 none = none
    ∧ moveToPlus1R "long" 1 1 = none := by with_unfolding_all decide

/-! ## Position sizer (claim C3) -/

lemma pairPipSize_pos (pair : CurrencyPair) : 0 < pairPipSize pair := by
  cases pair <;> with_unfolding_all decide

lemma pairPipValuePerLot_pos (pair : CurrencyPair) : 0 < pairPipValuePerLot pair := by
  cases pair <;> with_unfolding_all decide

/-- Claim C3 (amended): whenever the leverage cap does not bind — the
uncapped unit count is at most `balance × leverage / entry` — the returned
position satisfies `lots × stop_distance_pips × pip_value = risk_amount`
exactly.  (When the cap binds the lots are cut down and the product falls
strictly below the risk amount; see the counterexample.) -/
theorem position_size_risk_identity
    (b r lev : ℚ) (pair : CurrencyPair) (e s : ℚ) (ps : PositionSize)
    (hcap : b * (r / 100) / ((|e - s| / pairPipSize pair) * pairPipValuePerLot pair) * 100000
      ≤ b * lev / e)
    (h : calculatePositionSize b r lev pair e s = .ok ps) :
    ps.position_size_lots * ps.stop_distance_pips * ps.pip_value = b * (r / 100) := by
  unfold calculatePositionSize at h
  split at h
  · exact absurd h (by simp)
  · split at h
    · exact absurd h (by simp)
    · simp only at h
      next hpos hne =>
        cases Except.ok.inj h
        have hnz : (|e - s| / pairPipSize pair) * pairPipValuePerLot pair ≠ 0 := by
          have h1 : 0 < |e - s| := abs_pos.mpr (sub_ne_zero.mpr hne)
          have h2 := pairPipSize_pos pair
          have h3 := pairPipValuePerLot_pos pair
          positivity
        dsimp only
        rw [if_neg (not_lt.mpr hcap), mul_assoc, div_mul_cancel₀ _ hnz]

theorem position_size_risk_identity_witness :
    ((10000 : ℚ) * (1 / 100)
        / ((|127 / 100 - 1265 / 1000| / pairPipSize .gbpUsd) * pairPipValuePerLot .gbpUsd)
        * 100000
      ≤ 10000 * 100 / (127 / 100))
    ∧ calculatePositionSize 10000 1 100 .gbpUsd (127 / 100) (1265 / 1000) = .ok positionWitness
    ∧ positionWitness.position_size_lots * positionWitness.stop_distance_pips
        * positionWitness.pip_value = 10000 * (1 / 100) := by
  have hcap : (10000 : ℚ) * (1 / 100)
      / ((|127 / 100 - 1265 / 1000| / pairPipSize .gbpUsd) * pairPipValuePerLot .gbpUsd)
      * 100000 ≤ 10000 * 100 / (127 / 100) := by with_unfolding_all decide
  have h : calculatePositionSize 10000 1 100 .gbpUsd (127 / 100) (1265 / 1000)
      = .ok positionWitness := by with_unfolding_all rfl
  exact ⟨hcap, h,
    position_size_risk_identity 10000 1 100 .gbpUsd (127 / 100) (1265 / 1000)
      positionWitness hcap h⟩

/-- Counterexample to claim C3 as stated: at the default configuration
(balance 10000, risk 1%, leverage 1) with entry 1.2700 and stop 1.2650 the
leverage cap binds, the product `lots × pips × pip_value` is 5000/127 ≈ 39.37
while the risk amount is 100 — far outside any rounding tolerance. -/
theorem position_size_leverage_cap_cex :
    calculatePositionSize 10000 1 1 .gbpUsd (127 / 100) (1265 / 1000) = .ok positionCapped
    ∧ positionCapped.risk_amount = 100
    ∧ positionCapped.position_size_lots * positionCapped.stop_distance_pips
        * positionCapped.pip_value = 5000 / 127
    ∧ (5000 : ℚ) / 127 < 100 - 60 := by
  have husd : ¬ ("USD" = "JPY") := by decide
  refine ⟨?_, by norm_num [positionCapped], by norm_num [positionCapped], by norm_num⟩
  unfold calculatePositionSize positionCapped
  norm_num [pairPipSize, pairPipValuePerLot, CurrencyPair.quote_currency, abs_of_pos, husd]

/-! ## SL/TP calculator: custom stop of zero (claim C10) -/

/-- Claim C10: a supplied `custom_sl` of `0.0` behaves exactly like an absent
custom stop: Python's `if custom_sl:` is float truthiness, so the zero is
never validated or used and the stop is derived from the zones or the 1.5%
fallback, giving identical `SLTPLevels`. -/
theorem custom_sl_zero_ignored (minR : ℚ) (pair : CurrencyPair) (direction : String)
    (entryPrice : ℚ) (zones : List LiquidityZone) :
    calculateSlTp minR pair direction entryPrice zones (some 0)
      = calculateSlTp minR pair direction entryPrice zones none := by
  unfold calculateSlTp
  norm_num

/-! ## Signal generator (claims C1, C2) -/

/-- Claim C1: if the H4 trend is sideways, or the H1 direction does not equal
the H4 direction, `generate_signal` returns `None` — for every fundamental
signal, zone list and current price. -/
theorem trend_gate_blocks_signal (fundamental : Option FundamentalSignal)
    (trendH4 trendH1 : TrendAnalysis) (zones : List LiquidityZone) (currentPrice : ℚ)
    (h : trendH4.direction = .sideways ∨ trendH1.direction ≠ trendH4.direction) :
    generateSignal fundamental trendH4 trendH1 zones currentPrice = none := by
  unfold generateSignal
  cases fundamental with
  | none => rfl
  | some f =>
    dsimp only
    rcases h with h | h
    · by_cases h1 : f.strength.value < 2
      · rw [if_pos h1]
      · rw [if_neg h1, if_pos h]
    · by_cases h1 : f.strength.value < 2
      · rw [if_pos h1]
      · rw [if_neg h1]
        by_cases h2 : trendH4.direction = .sideways
        · rw [if_pos h2]
        · rw [if_neg h2, if_pos h]

theorem trend_gate_blocks_signal_witness :
    (sidewaysTrend.direction = .sideways ∨ bullishTrend.direction ≠ sidewaysTrend.direction)
    ∧ generateSignal (some strongFundamental) sidewaysTrend bullishTrend [] 1 = none :=
  ⟨Or.inl rfl,
   trend_gate_blocks_signal (some strongFundamental) sidewaysTrend bullishTrend [] 1
     (Or.inl rfl)⟩

set_option maxRecDepth 8000 in
/-- Claim C2: `_find_best_entry_zone` fails to prefer a bullish fair-value-gap
for a long.  With nearby zones `[equal-highs, bullish-FVG]` — which contain a
support-type zone per the claim — the function returns the resistance-type
equal-highs zone: its filter compares `zone_type.value` against the literal
`'bullish_fvg'`, but the enum value is `"fvg_bullish"`, so no FVG ever
matches and the list head is returned instead. -/
theorem best_entry_zone_misses_bullish_fvg :
    findBestEntryZone [equalHighsZone, bullishFvgZone] "long" = some equalHighsZone
    ∧ equalHighsZone.zone_type = .equalHighs
    ∧ bullishFvgZone.zone_type = .fairValueGapBullish
    ∧ LiquidityZoneType.fairValueGapBullish.value = "fvg_bullish" := by
  with_unfolding_all decide

/-! ## Equal-highs detection (claim C7) -/

lemma swingHighs_equalHighsCandles :
    swingHighs equalHighsCandles
      = [(1, 127 / 100), (3, 12702 / 10000), (5, 12699 / 10000)] := by
  norm_num [swingHighs, equalHighsCandles, List.range_succ, List.filterMap_cons,
    List.filterMap_nil, List.getD_cons_zero, List.getD_cons_succ]

/-- Claim C7: on the candle series whose swing highs are exactly
1.2700, 1.2702, 1.2699 (tolerance 0.0015, min touches 2),
`_detect_equal_highs` returns exactly one zone: type EQUAL_HIGHS, range
(1.2699, 1.2702), level the arithmetic mean of the three highs, and
strength `min(3, 5) = 3`. -/
theorem detect_equal_highs_cluster :
    detectEqualHighs equalHighsCandles =
      [{ zone_type := .equalHighs
         price_level := (127 / 100 + 12702 / 10000 + 12699 / 10000) / 3
         price_range := (12699 / 10000, 12702 / 10000)
         strength := 3
         touches := 3
         time_detected := 5
         candle_index := 5 }] := by
  unfold detectEqualHighs
  rw [swingHighs_equalHighsCandles]
  norm_num [MIN_TOUCHES, EQUAL_LEVEL_TOLERANCE, similarLevels, mkEqualZone, isDuplicateZone,
    listMin, listMax, listMean, List.filter_cons, List.foldl_cons, List.foldl_nil,
    List.any_cons, List.any_nil, List.getLast?, abs_of_nonneg, abs_of_nonpos]

/-! ## Fundamental scoring (claim C8) -/

lemma eventContribution_eq_zero {e : EconomicEvent}
    (h : optStrTruthy e.actual = false ∨ optStrTruthy e.forecast = false
      ∨ parseEconomicValue (e.actual.getD "") = parseEconomicValue (e.forecast.getD "")) :
    eventContribution e = 0 := by
  unfold eventContribution
  split
  · rfl
  · next hnot =>
    rcases h with h1 | h2 | h3
    · exact absurd (Or.inr h1) hnot
    · exact absurd (Or.inl h2) hnot
    · cases hA : parseEconomicValue (e.actual.getD "") with
      | none => rfl
      | some a =>
        rw [hA] at h3
        rw [← h3]
        simp

/-- Claim C8: appending a non-contributing event — one whose parsed actual
equals its parsed forecast, or one missing (or with empty) actual or
forecast — leaves `_calculate_currency_score` unchanged for every currency
and event list. -/
theorem currency_score_ignores_noncontributing
    (currency : String) (events : List EconomicEvent) (e : EconomicEvent)
    (h : optStrTruthy e.actual = false ∨ optStrTruthy e.forecast = false
      ∨ parseEconomicValue (e.actual.getD "") = parseEconomicValue (e.forecast.getD "")) :
    calculateCurrencyScore currency (events ++ [e]) = calculateCurrencyScore currency events := by
  unfold calculateCurrencyScore
  simp only [List.filter_append, List.foldl_append]
  by_cases hc : e.currency == currency
  · simp [hc, List.filter_cons, eventContribution_eq_zero h]
  · simp [hc, List.filter_cons]

theorem currency_score_ignores_noncontributing_witness :
    (optStrTruthy cpiInlineEvent.actual = false
      ∨ optStrTruthy cpiInlineEvent.forecast = false
      ∨ parseEconomicValue (cpiInlineEvent.actual.getD "")
        = parseEconomicValue (cpiInlineEvent.forecast.getD ""))
    ∧ calculateCurrencyScore "USD" ([gdpBeatEvent] ++ [cpiInlineEvent])
      = calculateCurrencyScore "USD" [gdpBeatEvent] :=
  ⟨Or.inr (Or.inr rfl),
   currency_score_ignores_noncontributing "USD" [gdpBeatEvent] cpiInlineEvent
     (Or.inr (Or.inr rfl))⟩

/-! ## SL/TP ladder geometry (claim C6) -/

/-- Claim C6: every successfully returned `SLTPLevels` has strictly increasing
take-profit distances from entry, every level on the profitable side of entry
for the trade direction (with the validated stop on the opposite side), the
distances equal to 1x, 2x and `max(3.0, MIN_R_MULTIPLE)`x the stop distance,
and a TP3 R-multiple at least the configured minimum. -/
theorem sltp_ladder_correct (minR : ℚ) (pair : CurrencyPair) (direction : String)
    (entryPrice : ℚ) (zones : List LiquidityZone) (customSl : Option ℚ) (levels : SLTPLevels)
    (hdir : direction = "long" ∨ direction = "short")
    (h : calculateSlTp minR pair direction entryPrice zones customSl = .ok levels) :
    |levels.take_profit_1 - levels.entry_price| < |levels.take_profit_2 - levels.entry_price|
    ∧ |levels.take_profit_2 - levels.entry_price| < |levels.take_profit_3 - levels.entry_price|
    ∧ |levels.take_profit_1 - levels.entry_price| = 1 * |levels.entry_price - levels.stop_loss|
    ∧ |levels.take_profit_2 - levels.entry_price| = 2 * |levels.entry_price - levels.stop_loss|
    ∧ |levels.take_profit_3 - levels.entry_price|
        = max 3 minR * |levels.entry_price - levels.stop_loss|
    ∧ minR ≤ levels.r_multiple_3
    ∧ (direction = "long" → levels.stop_loss < levels.entry_price
        ∧ levels.entry_price < levels.take_profit_1
        ∧ levels.entry_price < levels.take_profit_2
        ∧ levels.entry_price < levels.take_profit_3)
    ∧ (direction = "short" → levels.entry_price < levels.stop_loss
        ∧ levels.take_profit_1 < levels.entry_price
        ∧ levels.take_profit_2 < levels.entry_price
        ∧ levels.take_profit_3 < levels.entry_price) := by
  have hr3 : (3 : ℚ) ≤ max 3 minR := le_max_left _ _
  have hrm : minR ≤ max 3 minR := le_max_right _ _
  rcases hdir with hd | hd <;> subst hd
  · -- direction = "long"
    unfold calculateSlTp at h
    simp only at h
    generalize hSL : (match customSl with
      | some c => if c ≠ 0 then c else calculateStopLoss pair "long" entryPrice zones
      | none => calculateStopLoss pair "long" entryPrice zones) = SL at h
    split at h
    · next hv =>
      cases Except.ok.inj h
      have hlt : SL < entryPrice := by
        unfold validStopLoss at hv
        rw [decide_eq_true_eq] at hv
        by_contra hge
        exact hv.1 ⟨rfl, not_lt.mp hge⟩
      have hD : 0 < |entryPrice - SL| :=
        abs_pos.mpr (sub_ne_zero.mpr (ne_of_gt hlt))
      dsimp only
      simp only [eq_self_iff_true, if_true]
      have habs : ∀ k : ℚ, 0 ≤ k
          → |entryPrice + |entryPrice - SL| * k - entryPrice| = |entryPrice - SL| * k := by
        intro k hk
        have hk2 : entryPrice + |entryPrice - SL| * k - entryPrice = |entryPrice - SL| * k := by
          ring
        rw [hk2, abs_of_nonneg (mul_nonneg hD.le hk)]
      refine ⟨?_, ?_, ?_, ?_, ?_, ?_, ?_, ?_⟩
      · rw [habs 1 (by norm_num), habs 2 (by norm_num)]
        nlinarith [hD]
      · rw [habs 2 (by norm_num), habs (max 3 minR) (by linarith)]
        nlinarith [hD, hr3]
      · rw [habs 1 (by norm_num)]
        ring
      · rw [habs 2 (by norm_num)]
        ring
      · rw [habs (max 3 minR) (by linarith)]
        ring
      · rw [habs (max 3 minR) (by linarith), mul_comm, mul_div_assoc,
          div_self (ne_of_gt hD), mul_one]
        exact hrm
      · intro _
        refine ⟨hlt, ?_, ?_, ?_⟩ <;> nlinarith [hD, hr3]
      · intro hx
        exact absurd hx (by decide)
    · exact absurd h (by simp)
  · -- direction = "short"
    unfold calculateSlTp at h
    simp only at h
    generalize hSL : (match customSl with
      | some c => if c ≠ 0 then c else calculateStopLoss pair "short" entryPrice zones
      | none => calculateStopLoss pair "short" entryPrice zones) = SL at h
    split at h
    · next hv =>
      cases Except.ok.inj h
      have hlt : entryPrice < SL := by
        unfold validStopLoss at hv
        rw [decide_eq_true_eq] at hv
        by_contra hge
        exact hv.2 ⟨rfl, not_lt.mp hge⟩
      have hD : 0 < |entryPrice - SL| :=
        abs_pos.mpr (sub_ne_zero.mpr (ne_of_lt hlt))
      dsimp only
      have hlongne : (("short" : String) = "long") = False := by simp
      simp only [hlongne, if_false]
      have habs : ∀ k : ℚ, 0 ≤ k
          → |entryPrice - |entryPrice - SL| * k - entryPrice| = |entryPrice - SL| * k := by
        intro k hk
        have hk2 : entryPrice - |entryPrice - SL| * k - entryPrice = -(|entryPrice - SL| * k) := by
          ring
        rw [hk2, abs_neg, abs_of_nonneg (mul_nonneg hD.le hk)]
      refine ⟨?_, ?_, ?_, ?_, ?_, ?_, ?_, ?_⟩
      · rw [habs 1 (by norm_num), habs 2 (by norm_num)]
        nlinarith [hD]
      · rw [habs 2 (by norm_num), habs (max 3 minR) (by linarith)]
        nlinarith [hD, hr3]
      · rw [habs 1 (by norm_num)]
        ring
      · rw [habs 2 (by norm_num)]
        ring
      · rw [habs (max 3 minR) (by linarith)]
        ring
      · rw [habs (max 3 minR) (by linarith), mul_comm, mul_div_assoc,
          div_self (ne_of_gt hD), mul_one]
        exact hrm
      · intro hx
        exact absurd hx (by decide)
      · intro _
        refine ⟨hlt, ?_, ?_, ?_⟩ <;> nlinarith [hD, hr3]
    · exact absurd h (by simp)

theorem sltp_ladder_correct_witness :
    (("long" = "long" ∨ "long" = "short")
      ∧ calculateSlTp 3 CurrencyPair.gbpUsd "long" (127 / 100) [] none = .ok sltpWitnessLevels)
    ∧ (|sltpWitnessLevels.take_profit_1 - sltpWitnessLevels.entry_price|
        < |sltpWitnessLevels.take_profit_2 - sltpWitnessLevels.entry_price|
      ∧ |sltpWitnessLevels.take_profit_2 - sltpWitnessLevels.entry_price|
        < |sltpWitnessLevels.take_profit_3 - sltpWitnessLevels.entry_price|
      ∧ |sltpWitnessLevels.take_profit_1 - sltpWitnessLevels.entry_price|
        = 1 * |sltpWitnessLevels.entry_price - sltpWitnessLevels.stop_loss|
      ∧ |sltpWitnessLevels.take_profit_2 - sltpWitnessLevels.entry_price|
        = 2 * |sltpWitnessLevels.entry_price - sltpWitnessLevels.stop_loss|
      ∧ |sltpWitnessLevels.take_profit_3 - sltpWitnessLevels.entry_price|
        = max 3 3 * |sltpWitnessLevels.entry_price - sltpWitnessLevels.stop_loss|
      ∧ (3 : ℚ) ≤ sltpWitnessLevels.r_multiple_3
      ∧ ("long" = "long" → sltpWitnessLevels.stop_loss < sltpWitnessLevels.entry_price
          ∧ sltpWitnessLevels.entry_price < sltpWitnessLevels.take_profit_1
          ∧ sltpWitnessLevels.entry_price < sltpWitnessLevels.take_profit_2
          ∧ sltpWitnessLevels.entry_price < sltpWitnessLevels.take_profit_3)
      ∧ ("long" = "short" → sltpWitnessLevels.entry_price < sltpWitnessLevels.stop_loss
          ∧ sltpWitnessLevels.take_profit_1 < sltpWitnessLevels.entry_price
          ∧ sltpWitnessLevels.take_profit_2 < sltpWitnessLevels.entry_price
          ∧ sltpWitnessLevels.take_profit_3 < sltpWitnessLevels.entry_price)) := by
  have h : calculateSlTp 3 CurrencyPair.gbpUsd "long" (127 / 100) [] none
      = .ok sltpWitnessLevels := by with_unfolding_all rfl
  exact ⟨⟨Or.inl rfl, h⟩,
    sltp_ladder_correct 3 .gbpUsd "long" (127 / 100) [] none sltpWitnessLevels
      (Or.inl rfl) h⟩

/-! ## Liquidity zone range invariant (claim C9) -/

lemma foldl_min_le (x : ℚ) (xs : List ℚ) : xs.foldl min x ≤ x := by
  induction xs generalizing x with
  | nil => simp
  | cons y ys ih => exact le_trans (ih (min x y)) (min_le_left x y)

lemma le_foldl_max (x : ℚ) (xs : List ℚ) : x ≤ xs.foldl max x := by
  induction xs generalizing x with
  | nil => simp
  | cons y ys ih => exact le_trans (le_max_left x y) (ih (max x y))

lemma listMin_le_listMax {l : List ℚ} (h : l ≠ []) : listMin l ≤ listMax l := by
  cases l with
  | nil => exact absurd rfl h
  | cons x xs => exact le_trans (foldl_min_le x xs) (le_foldl_max x xs)

lemma foldl_all_zones {α : Type} (P : LiquidityZone → Prop)
    (f : List LiquidityZone → α → List LiquidityZone)
    (hf : ∀ acc a, (∀ z ∈ acc, P z) → ∀ z ∈ f acc a, P z)
    (l : List α) (acc : List LiquidityZone) (hacc : ∀ z ∈ acc, P z) :
    ∀ z ∈ l.foldl f acc, P z := by
  induction l generalizing acc with
  | nil => simpa using hacc
  | cons a t ih => exact ih (f acc a) (hf acc a hacc)

lemma candle_getD_mem {df : List Candle} {i : ℕ} (hi : i < df.length) :
    df.getD i default ∈ df := by
  rw [List.getD_eq_getElem df default hi]
  exact List.getElem_mem hi

lemma mkEqualZone_range (zt : LiquidityZoneType) (similar : List (ℕ × ℚ))
    (hne : similar ≠ []) :
    (mkEqualZone zt similar).price_range.1 ≤ (mkEqualZone zt similar).price_range.2 := by
  have hmap : similar.map Prod.snd ≠ [] := by
    intro hcon
    exact hne (List.map_eq_nil_iff.mp hcon)
  exact listMin_le_listMax hmap

lemma detectEqualHighs_range (df : List Candle) :
    ∀ z ∈ detectEqualHighs df, z.price_range.1 ≤ z.price_range.2 := by
  unfold detectEqualHighs
  simp only
  split
  · intro z hz; simp at hz
  · refine foldl_all_zones _ _ ?_ _ _ (by intro z hz; simp at hz)
    intro acc p hacc z hz
    simp only at hz
    split at hz
    next hlen =>
      split at hz
      next => exact hacc z hz
      next =>
        rcases List.mem_append.mp hz with hmem | hmem
        · exact hacc z hmem
        · rw [List.mem_singleton.mp hmem]
          apply mkEqualZone_range
          intro hcon
          rw [hcon] at hlen
          norm_num [MIN_TOUCHES] at hlen
    next => exact hacc z hz

lemma detectEqualLows_range (df : List Candle) :
    ∀ z ∈ detectEqualLows df, z.price_range.1 ≤ z.price_range.2 := by
  unfold detectEqualLows
  simp only
  split
  · intro z hz; simp at hz
  · refine foldl_all_zones _ _ ?_ _ _ (by intro z hz; simp at hz)
    intro acc p hacc z hz
    simp only at hz
    split at hz
    next hlen =>
      split at hz
      next => exact hacc z hz
      next =>
        rcases List.mem_append.mp hz with hmem | hmem
        · exact hacc z hmem
        · rw [List.mem_singleton.mp hmem]
          apply mkEqualZone_range
          intro hcon
          rw [hcon] at hlen
          norm_num [MIN_TOUCHES] at hlen
    next => exact hacc z hz

lemma detectStopHunts_range (df : List Candle)
    (hpos : ∀ c ∈ df, 0 ≤ c.low ∧ 0 ≤ c.high) :
    ∀ z ∈ detectStopHunts df, z.price_range.1 ≤ z.price_range.2 := by
  unfold detectStopHunts
  simp only
  refine foldl_all_zones _ _ ?_ _ _ (by intro z hz; simp at hz)
  intro acc i hacc z hz
  simp only at hz
  split at hz
  next hguard =>
    have hi : i < df.length := Nat.lt_of_succ_lt hguard.2
    have hcmem : df.getD i default ∈ df := candle_getD_mem hi
    split at hz
    next =>
      rcases List.mem_append.mp hz with hmem | hmem
      · exact hacc z hmem
      · rw [List.mem_singleton.mp hmem]
        have hl : 0 ≤ (df.getD i default).low := (hpos _ hcmem).1
        show (df.getD i default).low ≤ (df.getD i default).low * (1001 / 1000)
        nlinarith [hl]
    next =>
      split at hz
      next =>
        rcases List.mem_append.mp hz with hmem | hmem
        · exact hacc z hmem
        · rw [List.mem_singleton.mp hmem]
          have hh : 0 ≤ (df.getD i default).high := (hpos _ hcmem).2
          show (df.getD i default).high * (999 / 1000) ≤ (df.getD i default).high
          nlinarith [hh]
      next => exact hacc z hz
  next => exact hacc z hz

lemma detectFairValueGaps_range (df : List Candle) :
    ∀ z ∈ detectFairValueGaps df, z.price_range.1 ≤ z.price_range.2 := by
  unfold detectFairValueGaps
  refine foldl_all_zones _ _ ?_ _ _ (by intro z hz; simp at hz)
  intro acc i hacc z hz
  simp only at hz
  split at hz
  next =>
    split at hz
    next hgap =>
      split at hz
      next =>
        rcases List.mem_append.mp hz with hmem | hmem
        · exact hacc z hmem
        · rw [List.mem_singleton.mp hmem]
          exact le_of_lt hgap
      next => exact hacc z hz
    next =>
      split at hz
      next hgap2 =>
        split at hz
        next =>
          rcases List.mem_append.mp hz with hmem | hmem
          · exact hacc z hmem
          · rw [List.mem_singleton.mp hmem]
            exact le_of_lt hgap2
        next => exact hacc z hz
      next => exact hacc z hz
  next => exact hacc z hz

/-- Claim C9: with all candle prices positive, every zone produced by the
four sub-scans pooled by `detect_all_zones` has an ordered price range:
`price_range.1 ≤ price_range.2`. -/
theorem zones_price_range_ordered (df : List Candle)
    (hpos : ∀ c ∈ df, 0 < c.open_ ∧ 0 < c.high ∧ 0 < c.low ∧ 0 < c.close) :
    ∀ z ∈ detectAllZonesFrom df, z.price_range.1 ≤ z.price_range.2 := by
  intro z hz
  unfold detectAllZonesFrom at hz
  simp only at hz
  rw [List.mem_mergeSort] at hz
  simp only [List.mem_append] at hz
  rcases hz with ((h1 | h2) | h3) | h4
  · exact detectEqualHighs_range df z h1
  · exact detectEqualLows_range df z h2
  · exact detectStopHunts_range df
      (fun c hc => ⟨le_of_lt (hpos c hc).2.2.1, le_of_lt (hpos c hc).2.1⟩) z h3
  · exact detectFairValueGaps_range df z h4

theorem zones_price_range_ordered_witness :
    (∀ c ∈ equalHighsCandles, 0 < c.open_ ∧ 0 < c.high ∧ 0 < c.low ∧ 0 < c.close)
    ∧ ∀ z ∈ detectAllZonesFrom equalHighsCandles, z.price_range.1 ≤ z.price_range.2 := by
  have hp : ∀ c ∈ equalHighsCandles, 0 < c.open_ ∧ 0 < c.high ∧ 0 < c.low ∧ 0 < c.close := by
    with_unfolding_all decide
  exact ⟨hp, zones_price_range_ordered equalHighsCandles hp⟩

end PacifiqueTrade
